import Mathlib

/-!
Shallow embedding of the `socketio-asyncapi` validation/documentation layer.

The repository contains two variants of the facade `AsyncAPISocketIO`:
  * the older one at `src/socketio_asyncapi/application.py`   (suffix `Old` below)
  * the newer one at `src/src/socketio_asyncapi/application.py` (suffix `New` below)
Both are embedded; definitions are translated from the Python source.
-/

namespace SocketioAsyncapi

/-- Python runtime values relevant to the payload pipeline
(`PAYLOAD_INSTANCES` of `asyncapi/types.py`, plus `None` and pydantic
`BaseModel` instances, the latter tagged with their class name). -/
inductive Val where
  | vnone
  | vbool (b : Bool)
  | vint (n : Int)
  | vstr (s : String)
  | vdict (fields : List (String × Val))
  | vmodel (cls : String) (fields : List (String × Val))

/-- Python truthiness (`bool(x)`) on the embedded values: `None`, `False`,
`0`, `""` and `{}` are falsy; a `BaseModel` instance is always truthy
(pydantic models define neither `__bool__` nor `__len__`). -/
def truthy : Val → Bool
  | .vnone => false
  | .vbool b => b
  | .vint n => n != 0
  | .vstr s => s != ""
  | .vdict [] => false
  | .vdict (_ :: _) => true
  | .vmodel _ _ => true

/-- Field types of a structured-record (pydantic) model schema. -/
inductive FieldTy where
  | fint
  | fstr
  | fbool
deriving Repr, DecidableEq

/-- Payload model descriptors: the non-`None` values of `PAYLOAD_TYPES`
(`asyncapi/types.py`): primitive types `int`, `str`, `bool`, the generic
`dict` container, or a `BaseModel` subclass (tagged by class name, with a
flat field schema). -/
inductive PModel where
  | mint
  | mstr
  | mbool
  | mdict
  | mbase (cls : String) (schema : List (String × FieldTy))
deriving Repr, DecidableEq

/-- `isinstance` of a value against a field type (`bool` is a subclass of
`int` in Python, so a bool satisfies an `int` field). -/
def fieldSatisfies : Val → FieldTy → Bool
  | .vint _, .fint => true
  | .vbool _, .fint => true
  | .vstr _, .fstr => true
  | .vbool _, .fbool => true
  | _, _ => false

/-- Runtime type check of a payload value against a model descriptor.
This is `isinstance(value, model)` (old variant) and equally typeguard's
`check_type(value, model)` (new variant): both follow `isinstance`
semantics on these types.  A plain dict is NOT an instance of a
`BaseModel` subclass; a model instance matches exactly its own class. -/
def satisfies : Val → PModel → Bool
  | .vint _, .mint => true
  | .vbool _, .mint => true
  | .vstr _, .mstr => true
  | .vbool _, .mbool => true
  | .vdict _, .mdict => true
  | .vmodel c _, .mbase cls _ => c == cls
  | _, _ => false

/-- First-match association-list lookup, `dict.get` on string keys. -/
def lookupKey (k : String) : List (String × α) → Option α
  | [] => none
  | (k2, v) :: rest => if k2 == k then some v else lookupKey k rest

/-- `dict[k] = v`: replace the first binding of `k`, else append. -/
def dictSet (k : String) (v : α) : List (String × α) → List (String × α)
  | [] => [(k, v)]
  | (k2, v2) :: rest =>
      if k2 == k then (k2, v) :: rest else (k2, v2) :: dictSet k v rest

/-- Exceptions that can flow through the pipeline's catch-all handlers. -/
inductive Exc where
  /-- `EmitValidationError` (both variants; the old one carries only the
  message and event name, the new one also the model — conflated here). -/
  | emitValidation (event : String) (model : PModel)
  /-- `RequestValidationError` of the new variant (event + model). -/
  | requestValidation (event : String) (model : PModel)
  /-- `RequestValidationError` of the old variant (pydantic subclass, no
  event name). -/
  | requestValidationOld (model : PModel)
  /-- `ResponseValidationError` (event name and, in the new variant, the
  model). -/
  | responseValidation (event : String) (model : PModel)
  /-- pydantic `DictError` escaping the old variant's `except
  ValidationError` clause (a non-dict fed to `Model.validate`). -/
  | dictError (model : PModel)
  /-- `TypeError`, e.g. `isinstance(x, "NotProvided")` in the old response
  check, or `int({})` in primitive coercion. -/
  | typeError
  /-- `AttributeError`, from `None.__name__` while the new variant builds a
  `ResponseValidationError` for an undeclared (None) response model. -/
  | attributeError
  /-- `IndexError` from `args[0]` when `emit` got no payload argument. -/
  | indexError
deriving Repr, DecidableEq

/-! ### Emit validation (`AsyncAPISocketIO.emit`, both variants) -/

/-- Result of an `emit` call: the exception it raises to the caller, the
value returned by the exception hook (transport skipped), or delegation to
the native `super().emit` with the (possibly converted) arguments. -/
inductive EmitResult where
  | raised (e : Exc)
  | value (v : Val)
  | transport (args : List Val)

/-- `except Exception: err_handler = self.default_exception_handler; if
err_handler is None: raise; return await err_handler(exc)` — shared by
both emit variants.  The awaited hook is modelled as a pure function. -/
def hookOr (hook : Option (Exc → Val)) (e : Exc) : EmitResult :=
  match hook with
  | none => .raised e
  | some h => .value (h e)

/-- `issubclass(model, BaseModel)`. -/
def isBaseModel : PModel → Bool
  | .mbase _ _ => true
  | _ => false

/-- `issubclass(model, BaseModel) and isinstance(args[0], model)`. -/
def isBaseModelInstanceOf (v : Val) : PModel → Bool
  | .mbase cls _ => match v with
      | .vmodel c _ => c == cls
      | _ => false
  | _ => false

/-- `args[0].dict()` on a model instance (identity elsewhere; only ever
applied to model instances by the emit code). -/
def toDictVal : Val → Val
  | .vmodel _ fields => .vdict fields
  | v => v

/-- Older variant `AsyncAPISocketIO.emit`
(`src/socketio_asyncapi/application.py` lines 107-136).
`emitModels` is `self.emit_models` (whose stored values may be Python
`None`, hence `Option PModel`); `model is not None` is the `.bind id`. -/
def emitOld (validate : Bool) (emitModels : List (String × Option PModel))
    (hook : Option (Exc → Val)) (event : String) (args : List Val) : EmitResult :=
  if validate then
    match (lookupKey event emitModels).bind id with
    | none => .transport args
    | some model =>
      match args with
      | [] => hookOr hook .indexError   -- args[0] raises IndexError inside the try
      | a0 :: rest =>
        if isBaseModelInstanceOf a0 model then
          -- args = (args[0].dict(), *args[1:]) then fall through to super().emit
          .transport (toDictVal a0 :: rest)
        else if !(satisfies a0 model) then
          hookOr hook (.emitValidation event model)
        else
          .transport (a0 :: rest)
  else .transport args

/-- Newer variant `AsyncAPISocketIO.emit`
(`src/src/socketio_asyncapi/application.py` lines 115-144).
`check_type(args[0], model)` raises `TypeCheckError` on mismatch and
returns the checked value, so its truthiness gates the inner
`issubclass(model, BaseModel)` conversion branch. -/
def emitNew (validate : Bool) (emitModels : List (String × Option PModel))
    (hook : Option (Exc → Val)) (event : String) (args : List Val) : EmitResult :=
  if validate then
    match (lookupKey event emitModels).bind id with
    | none => .transport args
    | some model =>
      match args with
      | [] => hookOr hook .indexError   -- args[0] raises IndexError inside the try
      | a0 :: rest =>
        if satisfies a0 model then
          if truthy a0 && isBaseModel model then .transport (toDictVal a0 :: rest)
          else .transport (a0 :: rest)
        else
          hookOr hook (.emitValidation event model)
  else .transport args

/-! ### Request coercion (`_handle_all` validation step, both variants) -/

mutual
/-- Python `repr` of a value (used inside container text forms). -/
def pyRepr : Val → String
  | .vnone => "None"
  | .vbool b => cond b "True" "False"
  | .vint n => toString n
  | .vstr s => "\x27" ++ s ++ "\x27"
  | .vdict fields => "\x7b" ++ pyReprFields fields ++ "\x7d"
  | .vmodel cls fields => cls ++ "(" ++ pyReprFields fields ++ ")"

/-- Comma-separated `repr` of dict entries. -/
def pyReprFields : List (String × Val) → String
  | [] => ""
  | (k, v) :: rest =>
      "\x27" ++ k ++ "\x27: " ++ pyRepr v ++
      (match rest with | [] => "" | _ :: _ => ", ") ++ pyReprFields rest
end

/-- Python `str(x)` (textual form; container/model texts are approximated
by their repr, which the pipeline never inspects further). -/
def pyStr : Val → String
  | .vstr s => s
  | v => pyRepr v

/-- The two failure modes of a primitive constructor call. -/
inductive CoerceErr where
  | valueError
  | typeError
deriving Repr, DecidableEq

/-- Primitive coercion `request_model(request)` for non-BaseModel models:
`int(x)`, `str(x)`, `bool(x)`, `dict(x)`, with Python's
ValueError/TypeError split (the pipeline catches only `ValueError`).
`str` and `bool` accept every value; `int` parses strings and rejects
`None`/containers with `TypeError`; `dict` accepts mappings and iterables
of pairs (a pydantic model iterates as field pairs, the empty string as
an empty iterable). -/
def pyCoerce : PModel → Val → Except CoerceErr Val
  | .mint, .vint n => .ok (.vint n)
  | .mint, .vbool b => .ok (.vint (cond b 1 0))
  | .mint, .vstr s =>
      (match s.trim.toInt? with
        | some n => .ok (.vint n)
        | none => .error .valueError)
  | .mint, _ => .error .typeError
  | .mstr, v => .ok (.vstr (pyStr v))
  | .mbool, v => .ok (.vbool (truthy v))
  | .mdict, .vdict fields => .ok (.vdict fields)
  | .mdict, .vmodel _ fields => .ok (.vdict fields)
  | .mdict, .vstr "" => .ok (.vdict [])
  | .mdict, .vstr _ => .error .valueError
  | .mdict, _ => .error .typeError
  | .mbase _ _, _ => .error .typeError  -- never consulted: record models take the pydantic branch

/-- A wire dict conforms to a record schema when every declared field is
present with a value of the declared runtime type (extra keys are ignored,
as pydantic v1 does by default; pydantic's lenient string-to-number
coercions are not modelled — conformance is the strict shape check). -/
def conformsToSchema (schema : List (String × FieldTy)) (fields : List (String × Val)) : Bool :=
  schema.all fun kt =>
    match lookupKey kt.1 fields with
    | some v => fieldSatisfies v kt.2
    | none => false

/-- The declared fields of the parsed instance (`Model.parse_obj`). -/
def projectSchema (schema : List (String × FieldTy)) (fields : List (String × Val)) : List (String × Val) :=
  schema.filterMap fun kt => (lookupKey kt.1 fields).map fun v => (kt.1, v)

/-- The value held by `request_model` / `response_model` inside
`_handle_all`: either the string sentinel `'NotProvided'` or an actual
payload type; the surrounding `Option` is Python `None`. -/
inductive RModel where
  | sentinel
  | core (m : PModel)
deriving Repr, DecidableEq

/-- Request coercion/validation step of the newer `_handle_all`
(`src/src/socketio_asyncapi/application.py` lines 303-323): pydantic
`Model.validate` + `Model.parse_obj` for record models (both `DictError`
and `ValidationError` are re-raised as `RequestValidationError`), a
primitive constructor call otherwise (only `ValueError` is converted; a
`TypeError` escapes as itself to the outer catch-all).  Returns the
coerced value or the exception that reaches the outer catch-all. -/
def requestValidateNew (event : String) (m : PModel) (request : Val) : Except Exc Val :=
  match m with
  | .mbase cls schema =>
    (match request with
      | .vdict fields =>
          if conformsToSchema schema fields
          then .ok (.vmodel cls (projectSchema schema fields))
          else .error (.requestValidation event (.mbase cls schema))
      | .vmodel c fields =>
          -- validate() passes an instance of the class through unchanged; an
          -- instance of another class is converted via dict(value) and re-parsed
          if c == cls then .ok (.vmodel cls fields)
          else if conformsToSchema schema fields
          then .ok (.vmodel cls (projectSchema schema fields))
          else .error (.requestValidation event (.mbase cls schema))
      | _ => .error (.requestValidation event (.mbase cls schema)))
  | prim =>
    (match pyCoerce prim request with
      | .ok v => .ok v
      | .error .valueError => .error (.requestValidation event prim)
      | .error .typeError => .error .typeError)

/-- Request coercion/validation step of the older `_handle_all`
(`src/socketio_asyncapi/application.py` lines 301-319): only
`ValidationError` is converted to `RequestValidationError`, so a pydantic
`DictError` (non-dict fed to a record model) escapes as itself; the old
`RequestValidationError` carries no event name. -/
def requestValidateOld (m : PModel) (request : Val) : Except Exc Val :=
  match m with
  | .mbase cls schema =>
    (match request with
      | .vdict fields =>
          if conformsToSchema schema fields
          then .ok (.vmodel cls (projectSchema schema fields))
          else .error (.requestValidationOld (.mbase cls schema))
      | .vmodel c fields =>
          if c == cls then .ok (.vmodel cls fields)
          else if conformsToSchema schema fields
          then .ok (.vmodel cls (projectSchema schema fields))
          else .error (.requestValidationOld (.mbase cls schema))
      | _ => .error (.dictError (.mbase cls schema)))
  | prim =>
    (match pyCoerce prim request with
      | .ok v => .ok v
      | .error .valueError => .error (.requestValidationOld prim)
      | .error .typeError => .error .typeError)

/-! ### The `_handle_all` wrapper pipeline (both variants) -/

/-- The per-event configuration the wrapper closes over: `self.validate`,
the resolved `request_model` / `response_model`, and
`self.default_exception_handler` (the awaited hook modelled as a pure
function of the exception). -/
structure PipeConfig where
  validate : Bool
  reqm : Option RModel
  respm : Option RModel
  hook : Option (Exc → Val)

/-- Observable outcome of one wrapped invocation: the positional
arguments and `request` keyword argument the user handler actually
received (`none` when the handler was never invoked), and the wrapper's
return value (`None` is `Val.vnone`). -/
structure WrapResult where
  handlerArgs : Option (List Val × Option Val)
  result : Val

/-- `args[-1]` (total function: `vnone` on the empty list, but only ever
consulted under the guard `len(args) > 1`). -/
def pyLast : List Val → Val
  | [] => .vnone
  | [a] => a
  | _ :: rest => pyLast rest

/-- Lines 290-299 of the newer wrapper (identical in the older one): the
candidate request is `args[-1]` when there are at least two positional
arguments; if the candidate is falsy (`if not request`), the flag
`did_request_came_as_arg` is reset and the wrapper falls back to the
keyword argument `request`. -/
def locateRequest (args : List Val) (kwreq : Option Val) : Bool × Option Val :=
  let first : Bool × Option Val :=
    if args.length > 1 then (true, some (pyLast args)) else (false, none)
  match first.2 with
  | some v => if truthy v then first else (false, kwreq)
  | none => (false, kwreq)

/-- `args = (args[0], request, *args[2:])` — newer line 326, older line 322. -/
def replaceArg (args : List Val) (coerced : Val) : List Val :=
  args.headD .vnone :: coerced :: args.drop 2

/-- Truthiness/sentinel tests on `request_model` in the guard `request and
self.validate and request_model and request_model != NotProvidedType and
request_model != 'NotProvided'`: Python `None` is falsy, the sentinel
string is excluded, and the comparison with the `Literal` type object
`NotProvidedType` never succeeds (dropped). -/
def isRealModel : Option RModel → Bool
  | some (.core _) => true
  | _ => false

/-- The request-validation phase of the wrapper (newer lines 301-328,
older lines 299-324; the two variants differ only in the exception values
produced by `validator`): locate the request, run the guard, coerce, and
splice the coerced value back into the arguments (position 1) or the
`request` keyword. -/
def validatePhase (validator : PModel → Val → Except Exc Val)
    (validate : Bool) (reqm : Option RModel)
    (loc : Bool × Option Val) (args : List Val) (kwreq : Option Val) :
    Except Exc (List Val × Option Val) :=
  match loc.2 with
  | some rv =>
      if truthy rv && validate && isRealModel reqm then
        match reqm with
        | some (.core m) =>
          (match validator m rv with
            | .error e => .error e
            | .ok coerced =>
                if loc.1 then .ok (replaceArg args coerced, kwreq)
                else .ok (args, some coerced))
        | _ => .ok (args, kwreq)
      else .ok (args, kwreq)
  | none => .ok (args, kwreq)

/-- Newer response check (`src/src/.../application.py` lines 333-339):
gated by truthiness of the response, `self.validate` and the sentinel
comparisons — but NOT by `response_model` being set: a Python-`None`
model passes the guard, `check_type(response, None)` then fails for every
truthy (hence non-None) response, and building the error message touches
`None.__name__`, raising `AttributeError`. -/
def responseCheckNew (validate : Bool) (respm : Option RModel) (event : String) (response : Val) :
    Except Exc Unit :=
  if truthy response && validate && !(respm == some .sentinel) then
    match respm with
    | some (.core m) =>
        if satisfies response m then .ok ()
        else .error (.responseValidation event m)
    | none => .error .attributeError
    | some .sentinel => .ok ()   -- unreachable under the guard
  else .ok ()

/-- Older response check (`src/socketio_asyncapi/application.py` lines
332-339): gated ONLY by the truthiness of the response — neither
`self.validate` nor the sentinel is consulted, and
`isinstance(response, response_model)` raises `TypeError` when
`response_model` is `None` or the string sentinel. -/
def responseCheckOld (respm : Option RModel) (event : String) (response : Val) :
    Except Exc Unit :=
  if truthy response then
    match respm with
    | some (.core m) =>
        if satisfies response m then .ok ()
        else .error (.responseValidation event m)
    | _ => .error .typeError
  else .ok ()

/-- Final `isinstance(response, BaseModel)` conversion (newer lines
349-352, older lines 354-357). -/
def finalize : Val → Val
  | .vmodel _ fields => .vdict fields
  | v => v

/-- The wrapper's `except Exception` clause (newer lines 341-347, older
341-352): with no default hook installed the wrapper plainly `return`s
(`None`); otherwise the hook's awaited result becomes the response (and
then still goes through the final BaseModel conversion). -/
def handleExc (hook : Option (Exc → Val)) (called : Option (List Val × Option Val)) (e : Exc) :
    WrapResult :=
  match hook with
  | none => { handlerArgs := called, result := .vnone }
  | some h => { handlerArgs := called, result := finalize (h e) }

/-- The newer `_handle_all(message, ...)` wrapper
(`src/src/socketio_asyncapi/application.py` lines 289-352) as a function
of the configuration, the user handler (positional args × `request`
keyword → returned value; the await is transparent here) and the
invocation. -/
def wrapperNew (cfg : PipeConfig) (event : String)
    (handler : List Val → Option Val → Val) (args : List Val) (kwreq : Option Val) : WrapResult :=
  let loc := locateRequest args kwreq
  match validatePhase (requestValidateNew event) cfg.validate cfg.reqm loc args kwreq with
  | .error e => handleExc cfg.hook none e
  | .ok (args2, kw2) =>
    let response := handler args2 kw2
    match responseCheckNew cfg.validate cfg.respm event response with
    | .error e => handleExc cfg.hook (some (args2, kw2)) e
    | .ok _ => { handlerArgs := some (args2, kw2), result := finalize response }

/-- The older `_handle_all(message, ...)` wrapper
(`src/socketio_asyncapi/application.py` lines 288-357); it differs from
the newer one in the exceptions of the validation step and in the
response-check guard. -/
def wrapperOld (cfg : PipeConfig) (event : String)
    (handler : List Val → Option Val → Val) (args : List Val) (kwreq : Option Val) : WrapResult :=
  let loc := locateRequest args kwreq
  match validatePhase requestValidateOld cfg.validate cfg.reqm loc args kwreq with
  | .error e => handleExc cfg.hook none e
  | .ok (args2, kw2) =>
    let response := handler args2 kw2
    match responseCheckOld cfg.respm event response with
    | .error e => handleExc cfg.hook (some (args2, kw2)) e
    | .ok _ => { handlerArgs := some (args2, kw2), result := finalize response }

/-! ### Emit declaration registration (`AsyncAPISocketIO.doc_emit`) -/

/-- One `add_new_sender` call recorded against the specification
document: namespace, event name, payload model, description.
`add_new_sender` appends a message and a `$ref` to the channel's
subscribe `oneOf` list on every call, so the document observably grows
with each recorded entry. -/
structure SenderEntry where
  nsp : Option String
  event : String
  model : Option PModel
  descr : String
deriving Repr, DecidableEq

/-- The registration state touched by `doc_emit`: `self.emit_models`
(stored values may be Python `None`) and the sender entries accumulated
on `self.asyncapi_doc`. -/
structure RegState where
  emitModels : List (String × Option PModel)
  senderDoc : List SenderEntry
deriving Repr, DecidableEq

/-- `model.__name__`: `int.__name__ == "int"` and so on for the
primitive types; the class name for a `BaseModel` subclass. -/
def pmodelName : PModel → String
  | .mint => "int"
  | .mstr => "str"
  | .mbool => "bool"
  | .mdict => "dict"
  | .mbase cls _ => cls

/-- What the duplicate-registration `raise` can produce: the
configuration `ValueError`, or — when the conflicting `model` argument
is Python `None` — the `AttributeError` raised by `model.__name__`
while the f-string message is still being built (old lines 150-151, new
lines 158-159). -/
inductive RegErr where
  | valueError (msg : String)
  | attributeError
deriving Repr, DecidableEq

/-- `raise ValueError(f"Event {event} already registered with different
model {model.__name__}")`: the message is evaluated first, so a `None`
model raises `AttributeError` instead of the `ValueError`. -/
def duplicateRegErr (event : String) (model : Option PModel) : RegErr :=
  match model with
  | none => .attributeError
  | some m =>
      .valueError ("Event " ++ event ++ " already registered with different model " ++ pmodelName m)

/-- Older `doc_emit` decorator body
(`src/socketio_asyncapi/application.py` lines 138-157).  The guard is
`if self.emit_models.get(event):` — a TRUTHINESS test, so an event
stored with model `None` counts as absent and is re-registered. -/
def docEmitOld (event : String) (model : Option PModel) (nsp : Option String) (descr : String)
    (s : RegState) : Except RegErr RegState :=
  match (lookupKey event s.emitModels).bind id with
  | some stored =>
      if (some stored : Option PModel) != model then
        .error (duplicateRegErr event model)
      else .ok s
  | none =>
      .ok { emitModels := dictSet event model s.emitModels,
            senderDoc := s.senderDoc ++ [⟨nsp, event, model, descr⟩] }

/-- Newer `doc_emit` decorator body
(`src/src/socketio_asyncapi/application.py` lines 146-165).  The guard
is the membership test `if event in self.emit_models:`. -/
def docEmitNew (event : String) (model : Option PModel) (nsp : Option String) (descr : String)
    (s : RegState) : Except RegErr RegState :=
  match lookupKey event s.emitModels with
  | some stored =>
      if stored != model then
        .error (duplicateRegErr event model)
      else .ok s
  | none =>
      .ok { emitModels := dictSet event model s.emitModels,
            senderDoc := s.senderDoc ++ [⟨nsp, event, model, descr⟩] }

/-! ### Default exception hook registration (`on_error_default`) -/

/-- Abstract view of a candidate exception hook: whether Python
`callable(h)` holds and whether `asyncio.iscoroutinefunction(h)` holds. -/
structure HookFn where
  isCallable : Bool
  isCoroutineFn : Bool
deriving Repr, DecidableEq

/-- Older `on_error_default` (`src/socketio_asyncapi/application.py`
lines 228-242): only `callable` is checked; on success the hook replaces
`self.default_exception_handler` unconditionally. -/
def onErrorDefaultOld (h : HookFn) (_current : Option HookFn) : Except String (Option HookFn) :=
  if !h.isCallable then .error "exception_handler must be callable"
  else .ok (some h)

/-- Newer `on_error_default` (`src/src/socketio_asyncapi/application.py`
lines 231-245): `callable` AND `asyncio.iscoroutinefunction` are both
required; on success the hook replaces the previous one. -/
def onErrorDefaultNew (h : HookFn) (_current : Option HookFn) : Except String (Option HookFn) :=
  if !h.isCallable || !h.isCoroutineFn then .error "exception_handler must be callable"
  else .ok (some h)

/-! ### Model resolution from type hints (`AsyncAPISocketIO.on`) -/

/-- `posible_request_model`: the `__annotations__` entry of the LAST
positional parameter (`inspect.getfullargspec(handler)[0][-1]`); the
string sentinel when that parameter has no annotation
(`.get(first_arg_name, "NotProvided")`); Python `None` when the handler
has no positional parameters at all (the `IndexError` branch).  A
parameter list element is the parameter's annotation, if any. -/
def inferredRequest (params : List (Option PModel)) : Option RModel :=
  match params.getLast? with
  | none => none
  | some none => some .sentinel
  | some (some m) => some (.core m)

/-- `posible_response_model`: the `return` annotation, with the string
sentinel as `.get` default. -/
def inferredResponse (returnAnn : Option PModel) : Option RModel :=
  match returnAnn with
  | none => some .sentinel
  | some m => some (.core m)

/-- Model resolution in the `on` decorator (newer lines 194-207, older
lines 187-200 — identical): with `get_from_typehint` set, a model that
is still Python `None` is filled from the handler's reflection; an
explicitly supplied model is left untouched. -/
def resolveModels (getFromTypehint : Bool) (reqArg respArg : Option RModel)
    (params : List (Option PModel)) (returnAnn : Option PModel) :
    Option RModel × Option RModel :=
  if getFromTypehint then
    ((match reqArg with | none => inferredRequest params | some r => some r),
     (match respArg with | none => inferredResponse returnAnn | some r => some r))
  else (reqArg, respArg)

/-! ### Specification document rendering (`AsyncAPIDoc.get_yaml`) -/

/-- JSON tree — the `json.loads(self.json(...))` intermediate of
`get_yaml`. -/
inductive JVal where
  | jnull
  | jbool (b : Bool)
  | jstr (s : String)
  | jarr (xs : List JVal)
  | jobj (fields : List (String × JVal))

mutual
/-- Deterministic serialization standing in for `yaml.safe_dump`: a pure
function of the JSON tree (the exact text layout is not load-bearing for
the claims — determinism and purity are). -/
def yamlDump : JVal → String
  | .jnull => "null"
  | .jbool b => cond b "true" "false"
  | .jstr s => s
  | .jarr xs => "[" ++ yamlDumpList xs ++ "]"
  | .jobj fields => "\x7b" ++ yamlDumpFields fields ++ "\x7d"

/-- Comma-separated dump of array elements. -/
def yamlDumpList : List JVal → String
  | [] => ""
  | x :: rest => yamlDump x ++ "," ++ yamlDumpList rest

/-- Comma-separated dump of object fields. -/
def yamlDumpFields : List (String × JVal) → String
  | [] => ""
  | (k, v) :: rest => k ++ ": " ++ yamlDump v ++ "," ++ yamlDumpFields rest
end

/-- The `info` block of the document. -/
structure InfoObject where
  title : String
  version : String
  description : String

/-- One named server entry. -/
structure ServerItem where
  url : String
  protocol : String
  protocolVersion : String

/-- One component message (as built by `add_new_receiver` /
`add_new_sender`): name, description, optional payload schema fragment,
optional `x-ack` fragment. -/
structure MessageItem where
  name : String
  description : String
  payload : Option JVal
  xack : Option JVal

/-- One channel: ordered `$ref` lists for the publish/subscribe `oneOf`
message lists, plus the optional fixed `x-handlers` marker of the
default channel. -/
structure ChannelItem where
  publishRefs : List String
  subscribeRefs : List String
  xhandlers : Option (List (String × String))

/-- The `components` table: messages and schemas. -/
structure Components where
  messages : List (String × MessageItem)
  schemas : List (String × JVal)

/-- The in-memory specification document (`AsyncAPIDoc`, a pydantic
model over `AsyncAPIBase`): the source of truth that registrations
mutate and `get_yaml` projects. -/
structure AsyncAPIDoc where
  asyncapi : String
  info : InfoObject
  servers : List (String × ServerItem)
  channels : List (String × ChannelItem)
  components : Components

/-- `exclude_none=True`: an absent (`None`) field is dropped from the
serialized object. -/
def optField (k : String) (v : Option JVal) : List (String × JVal) :=
  match v with
  | none => []
  | some j => [(k, j)]

/-- Serialize one message, dropping `None` fields. -/
def messageToJson (m : MessageItem) : JVal :=
  .jobj ([("name", .jstr m.name), ("description", .jstr m.description)]
    ++ optField "payload" m.payload ++ optField "x-ack" m.xack)

/-- Serialize one channel: each `oneOf` entry is a `$ref` object. -/
def channelToJson (c : ChannelItem) : JVal :=
  .jobj ([("publish", .jobj [("message",
            .jobj [("oneOf", .jarr (c.publishRefs.map fun r => .jobj [("$ref", .jstr r)]))])]),
          ("subscribe", .jobj [("message",
            .jobj [("oneOf", .jarr (c.subscribeRefs.map fun r => .jobj [("$ref", .jstr r)]))])])]
    ++ (match c.xhandlers with
        | none => []
        | some hs => [("x-handlers", .jobj (hs.map fun kv => (kv.1, JVal.jstr kv.2)))]))

/-- `self.json(by_alias=True, exclude_none=True)` followed by
`json.loads`: project the document tree to a JSON tree. -/
def docToJson (d : AsyncAPIDoc) : JVal :=
  .jobj [("asyncapi", .jstr d.asyncapi),
         ("info", .jobj [("title", .jstr d.info.title),
                         ("version", .jstr d.info.version),
                         ("description", .jstr d.info.description)]),
         ("servers", .jobj (d.servers.map fun kv =>
            (kv.1, JVal.jobj [("url", .jstr kv.2.url),
                              ("protocol", .jstr kv.2.protocol),
                              ("protocolVersion", .jstr kv.2.protocolVersion)]))),
         ("channels", .jobj (d.channels.map fun kv => (kv.1, channelToJson kv.2))),
         ("components", .jobj [("messages", .jobj (d.components.messages.map fun kv =>
                                  (kv.1, messageToJson kv.2))),
                               ("schemas", .jobj d.components.schemas)])]

/-- `AsyncAPIDoc.get_yaml` (`asyncapi/docs.py` lines 88-97), modelled as
a method on the document state: it returns the rendered text together
with the resulting document state.  The body
`yaml.safe_dump(json.loads(self.json(...)))` only reads `self`, which is
what the unchanged second component records. -/
def get_yaml (d : AsyncAPIDoc) : String × AsyncAPIDoc :=
  (yamlDump (docToJson d), d)

/-! ## Theorems -/

/-- A value that fails the runtime type check is in particular not a
`BaseModel` instance of the model's class. -/
theorem isBaseModelInstanceOf_eq_false {a0 : Val} {m : PModel}
    (h : satisfies a0 m = false) : isBaseModelInstanceOf a0 m = false := by
  cases m <;> cases a0 <;> simp_all [satisfies, isBaseModelInstanceOf]

/-- C1: for an emit call with validation enabled and a declared model the
payload does not satisfy, both variants of `AsyncAPISocketIO.emit` raise
`EmitValidationError` to the caller without ever invoking the transport
when no default exception hook is registered; with a hook registered,
the awaited hook receives the error, its return value becomes the emit
call's result, and the transport emit is skipped entirely. -/
theorem c1_emit_validation_failure
    (models : List (String × Option PModel)) (event : String)
    (a0 : Val) (rest : List Val) (m : PModel)
    (hm : (lookupKey event models).bind id = some m)
    (hns : satisfies a0 m = false) :
    (emitNew true models none event (a0 :: rest) =
        .raised (.emitValidation event m) ∧
     emitOld true models none event (a0 :: rest) =
        .raised (.emitValidation event m)) ∧
    (∀ h : Exc → Val,
      emitNew true models (some h) event (a0 :: rest) =
          .value (h (.emitValidation event m)) ∧
      emitOld true models (some h) event (a0 :: rest) =
          .value (h (.emitValidation event m))) := by
  have hm2 : (lookupKey event models).bind (fun a => a) = some m := hm
  refine ⟨⟨?_, ?_⟩, fun h => ⟨?_, ?_⟩⟩ <;>
    simp [emitNew, emitOld, hm2, hns, hookOr, isBaseModelInstanceOf_eq_false hns]

/-- C1 witness: a concrete non-conforming emit. -/
theorem c1_witness :
    emitNew true [("e", some PModel.mint)] none "e" [Val.vstr "x"] =
      .raised (.emitValidation "e" PModel.mint) ∧
    emitOld true [("e", some PModel.mint)] none "e" [Val.vstr "x"] =
      .raised (.emitValidation "e" PModel.mint) :=
  (c1_emit_validation_failure [("e", some PModel.mint)] "e" (Val.vstr "x") []
    PModel.mint (by rfl) (by rfl)).1

/-- C2: an inbound invocation whose located payload fails validation
against the declared request model, with no default exception hook
registered: in both variants the user handler is never invoked and the
wrapped handler returns no result (`None`) instead of raising — the
validation error is silently swallowed. -/
theorem c2_request_failure_swallowed
    (reqm respm : Option RModel) (m : PModel) (event : String)
    (handler : List Val → Option Val → Val) (args : List Val) (kwreq : Option Val)
    (rv : Val) (eNew eOld : Exc)
    (hr : reqm = some (.core m))
    (hloc : (locateRequest args kwreq).2 = some rv)
    (htr : truthy rv = true)
    (hvNew : requestValidateNew event m rv = .error eNew)
    (hvOld : requestValidateOld m rv = .error eOld) :
    wrapperNew ⟨true, reqm, respm, none⟩ event handler args kwreq =
      { handlerArgs := none, result := .vnone } ∧
    wrapperOld ⟨true, reqm, respm, none⟩ event handler args kwreq =
      { handlerArgs := none, result := .vnone } := by
  subst hr
  constructor <;>
    simp [wrapperNew, wrapperOld, validatePhase, hloc, htr, hvNew, hvOld,
      isRealModel, handleExc]

/-- C2 witness: a non-conforming dict payload against a record request
model. -/
theorem c2_witness :
    wrapperNew ⟨true, some (.core (.mbase "User" [("id", .fint)])), some .sentinel, none⟩ "evt"
        (fun _ _ => Val.vnone) [Val.vstr "sid", Val.vdict [("id", Val.vstr "x")]] none =
      { handlerArgs := none, result := Val.vnone } ∧
    wrapperOld ⟨true, some (.core (.mbase "User" [("id", .fint)])), some .sentinel, none⟩ "evt"
        (fun _ _ => Val.vnone) [Val.vstr "sid", Val.vdict [("id", Val.vstr "x")]] none =
      { handlerArgs := none, result := Val.vnone } :=
  c2_request_failure_swallowed (some (.core (.mbase "User" [("id", .fint)])))
    (some .sentinel) (.mbase "User" [("id", .fint)]) "evt" (fun _ _ => Val.vnone)
    [Val.vstr "sid", Val.vdict [("id", Val.vstr "x")]] none
    (Val.vdict [("id", Val.vstr "x")])
    (.requestValidation "evt" (.mbase "User" [("id", .fint)]))
    (.requestValidationOld (.mbase "User" [("id", .fint)]))
    rfl (by rfl) (by rfl) (by rfl) (by rfl)

/-- C3 counterexample: in the older variant, registering an emit event a
second time with the identical model is NOT always a no-op.  The guard
`if self.emit_models.get(event):` tests truthiness, so an event stored
with model `None` counts as absent: the second identical call appends a
duplicate sender entry to the specification document instead of leaving
it unchanged (and a conflicting second model would likewise not raise). -/
theorem c3_counterexample :
    docEmitOld "e" none none "" { emitModels := [], senderDoc := [] } =
      .ok { emitModels := [("e", none)], senderDoc := [⟨none, "e", none, ""⟩] } ∧
    docEmitOld "e" none none "" { emitModels := [("e", none)], senderDoc := [⟨none, "e", none, ""⟩] } =
      .ok { emitModels := [("e", none)],
            senderDoc := [⟨none, "e", none, ""⟩, ⟨none, "e", none, ""⟩] } ∧
    ([(⟨none, "e", none, ""⟩ : SenderEntry), ⟨none, "e", none, ""⟩] ≠
      [(⟨none, "e", none, ""⟩ : SenderEntry)]) :=
  ⟨by rfl, by rfl, by decide⟩

/-- C3 amended: a second `doc_emit` with the identical model is a no-op
(mapping and document unchanged) in both variants.  A second call with
a DIFFERENT model raises the configuration `ValueError` when the
conflicting model is an actual type, but raises `AttributeError` (from
`model.__name__` on `None` inside the f-string message) when the
conflicting model is Python `None` — unconditionally so in the newer
variant; in the older variant only when the stored model is not `None`:
an event stored with model `None` is treated as absent by the
truthiness guard, so ANY second call — identical or conflicting — is
accepted without error, overwriting the mapping and appending a
duplicate sender entry to the specification document. -/
theorem c3_amended
    (s : RegState) (event : String) (stored : Option PModel)
    (nsp2 : Option String) (descr2 : String)
    (hs : lookupKey event s.emitModels = some stored) :
    docEmitNew event stored nsp2 descr2 s = .ok s ∧
    (∀ m2, some m2 ≠ stored →
      docEmitNew event (some m2) nsp2 descr2 s =
        .error (.valueError ("Event " ++ event ++ " already registered with different model "
          ++ pmodelName m2))) ∧
    (stored ≠ none → docEmitNew event none nsp2 descr2 s = .error .attributeError) ∧
    (∀ m, stored = some m →
      docEmitOld event (some m) nsp2 descr2 s = .ok s ∧
      (∀ m2, m2 ≠ m →
        docEmitOld event (some m2) nsp2 descr2 s =
          .error (.valueError ("Event " ++ event ++ " already registered with different model "
            ++ pmodelName m2))) ∧
      docEmitOld event none nsp2 descr2 s = .error .attributeError) ∧
    (stored = none → ∀ model2,
      docEmitOld event model2 nsp2 descr2 s =
        .ok { emitModels := dictSet event model2 s.emitModels,
              senderDoc := s.senderDoc ++ [⟨nsp2, event, model2, descr2⟩] }) := by
  refine ⟨?_, fun m2 hne => ?_, fun hne => ?_,
    fun m hm => ⟨?_, fun m2 hne => ?_, ?_⟩, fun hn model2 => ?_⟩ <;>
    simp_all [docEmitNew, docEmitOld, duplicateRegErr, hs, bne_iff_ne, Ne.symm]

/-- C3 witness: an event registered with a concrete model is a no-op to
re-register identically in both variants; a conflicting actual type
raises the configuration error naming it, while a conflicting `None`
raises `AttributeError`. -/
theorem c3_witness :
    docEmitNew "e" (some PModel.mint) none ""
      { emitModels := [("e", some PModel.mint)], senderDoc := [⟨none, "e", some PModel.mint, ""⟩] } =
      .ok { emitModels := [("e", some PModel.mint)], senderDoc := [⟨none, "e", some PModel.mint, ""⟩] } ∧
    docEmitOld "e" (some PModel.mint) none ""
      { emitModels := [("e", some PModel.mint)], senderDoc := [⟨none, "e", some PModel.mint, ""⟩] } =
      .ok { emitModels := [("e", some PModel.mint)], senderDoc := [⟨none, "e", some PModel.mint, ""⟩] } ∧
    docEmitNew "e" (some PModel.mstr) none ""
      { emitModels := [("e", some PModel.mint)], senderDoc := [⟨none, "e", some PModel.mint, ""⟩] } =
      .error (.valueError ("Event " ++ "e" ++ " already registered with different model " ++ "str")) ∧
    docEmitNew "e" none none ""
      { emitModels := [("e", some PModel.mint)], senderDoc := [⟨none, "e", some PModel.mint, ""⟩] } =
      .error .attributeError := by
  have h := c3_amended
    { emitModels := [("e", some PModel.mint)], senderDoc := [⟨none, "e", some PModel.mint, ""⟩] }
    "e" (some PModel.mint) none "" (by rfl)
  exact ⟨h.1, (h.2.2.2.1 PModel.mint rfl).1,
    h.2.1 PModel.mstr (by decide), h.2.2.1 (by decide)⟩

/-- C4 counterexample, two independent failures of the claim as stated.
First: in the older variant the check is NOT gated on validation being
enabled — with `validate = False`, a declared `int` response model, no
hook, and a handler returning the truthy mismatching string `"x"`, the
claim says the result passes through unchanged, but the wrapper runs
the check, raises `ResponseValidationError`, swallows it and returns
`None`.  Second: with NO response model declared (`None`) and
validation enabled, the claim says the result passes through without a
response check, but in BOTH variants the check still runs — the newer
`check_type(response, None)` failure ends in `AttributeError` from
`None.__name__`, the older `isinstance(response, None)` raises
`TypeError` — swallowed, with `None` returned instead of `"x"`. -/
theorem c4_counterexample :
    wrapperOld ⟨false, none, some (.core PModel.mint), none⟩ "evt"
        (fun _ _ => Val.vstr "x") [Val.vstr "sid"] none =
      { handlerArgs := some ([Val.vstr "sid"], none), result := Val.vnone } ∧
    wrapperNew ⟨true, none, none, none⟩ "evt"
        (fun _ _ => Val.vstr "x") [Val.vstr "sid"] none =
      { handlerArgs := some ([Val.vstr "sid"], none), result := Val.vnone } ∧
    wrapperOld ⟨true, none, none, none⟩ "evt"
        (fun _ _ => Val.vstr "x") [Val.vstr "sid"] none =
      { handlerArgs := some ([Val.vstr "sid"], none), result := Val.vnone } ∧
    Val.vnone ≠ Val.vstr "x" :=
  ⟨by rfl, by rfl, by rfl, fun h => Val.noConfusion h⟩

/-- C4 amended.  NEWER variant: the response check runs exactly when the
handler's result is truthy, validation is enabled, and the response
model is not the `"NotProvided"` sentinel — being undeclared (`None`)
does NOT prevent the check: against a declared model a mismatch raises
`ResponseValidationError` carrying the event name and model, while
against `None` every truthy result fails `check_type` and
`None.__name__` raises `AttributeError` into the catch-all; in every
remaining case the result passes through without a check.  OLDER
variant: the truthiness of the result alone triggers the check — it
runs even when validation is disabled, raising
`ResponseValidationError` on a declared-model mismatch and `TypeError`
(from `isinstance` against a non-type) when the model is `None` or the
sentinel. -/
theorem c4_amended
    (validate : Bool) (reqm respm2 : Option RModel) (m : PModel) (hook : Option (Exc → Val))
    (event : String) (handler : List Val → Option Val → Val)
    (args : List Val) (kwreq : Option Val)
    (hloc : (locateRequest args kwreq).2 = none) :
    (truthy (handler args kwreq) = true → validate = true →
        satisfies (handler args kwreq) m = false →
      wrapperNew ⟨validate, reqm, some (.core m), hook⟩ event handler args kwreq =
        handleExc hook (some (args, kwreq)) (.responseValidation event m)) ∧
    ((truthy (handler args kwreq) = false ∨ validate = false ∨
        satisfies (handler args kwreq) m = true) →
      wrapperNew ⟨validate, reqm, some (.core m), hook⟩ event handler args kwreq =
        { handlerArgs := some (args, kwreq), result := finalize (handler args kwreq) }) ∧
    (truthy (handler args kwreq) = true → satisfies (handler args kwreq) m = false →
      wrapperOld ⟨validate, reqm, some (.core m), hook⟩ event handler args kwreq =
        handleExc hook (some (args, kwreq)) (.responseValidation event m)) ∧
    (truthy (handler args kwreq) = false ∨ satisfies (handler args kwreq) m = true →
      wrapperOld ⟨validate, reqm, some (.core m), hook⟩ event handler args kwreq =
        { handlerArgs := some (args, kwreq), result := finalize (handler args kwreq) }) ∧
    (wrapperNew ⟨validate, reqm, some .sentinel, hook⟩ event handler args kwreq =
      { handlerArgs := some (args, kwreq), result := finalize (handler args kwreq) }) ∧
    (truthy (handler args kwreq) = true → validate = true →
      wrapperNew ⟨validate, reqm, none, hook⟩ event handler args kwreq =
        handleExc hook (some (args, kwreq)) .attributeError) ∧
    ((truthy (handler args kwreq) = false ∨ validate = false) →
      wrapperNew ⟨validate, reqm, none, hook⟩ event handler args kwreq =
        { handlerArgs := some (args, kwreq), result := finalize (handler args kwreq) }) ∧
    (truthy (handler args kwreq) = true →
      (respm2 = none ∨ respm2 = some .sentinel) →
      wrapperOld ⟨validate, reqm, respm2, hook⟩ event handler args kwreq =
        handleExc hook (some (args, kwreq)) .typeError) ∧
    (truthy (handler args kwreq) = false →
      wrapperOld ⟨validate, reqm, respm2, hook⟩ event handler args kwreq =
        { handlerArgs := some (args, kwreq), result := finalize (handler args kwreq) }) := by
  refine ⟨fun h1 h2 h3 => ?_, fun h => ?_, fun h1 h3 => ?_, fun h => ?_,
    ?_, fun h1 h2 => ?_, fun h => ?_, fun h1 h2 => ?_, fun h1 => ?_⟩
  · simp [wrapperNew, validatePhase, hloc, responseCheckNew, h1, h2, h3]
  · rcases h with h | h | h <;>
      simp [wrapperNew, validatePhase, hloc, responseCheckNew, h]
  · simp [wrapperOld, validatePhase, hloc, responseCheckOld, h1, h3]
  · rcases h with h | h <;>
      simp [wrapperOld, validatePhase, hloc, responseCheckOld, h]
  · simp [wrapperNew, validatePhase, hloc, responseCheckNew]
  · simp [wrapperNew, validatePhase, hloc, responseCheckNew, h1, h2]
  · rcases h with h | h <;>
      simp [wrapperNew, validatePhase, hloc, responseCheckNew, h]
  · rcases h2 with h2 | h2 <;> subst h2 <;>
      simp [wrapperOld, validatePhase, hloc, responseCheckOld, h1]
  · simp [wrapperOld, validatePhase, hloc, responseCheckOld, h1]

/-- C4 witness: a conforming truthy string response passes through in
the newer variant with validation enabled. -/
theorem c4_witness :
    wrapperNew ⟨true, some RModel.sentinel, some (.core PModel.mstr), none⟩ "evt"
        (fun _ _ => Val.vstr "pong") [Val.vstr "sid"] none =
      { handlerArgs := some ([Val.vstr "sid"], none), result := Val.vstr "pong" } :=
  (c4_amended true (some RModel.sentinel) none PModel.mstr none "evt"
      (fun _ _ => Val.vstr "pong") [Val.vstr "sid"] none (by rfl)).2.1
    (Or.inr (Or.inr (by rfl)))

/-- C5 counterexample: the older `on_error_default` checks only
`callable` — a callable that is NOT a coroutine function is accepted and
stored instead of raising the configuration error the claim requires. -/
theorem c5_counterexample :
    onErrorDefaultOld ⟨true, false⟩ none = .ok (some ⟨true, false⟩) ∧
    (⟨true, false⟩ : HookFn).isCoroutineFn = false :=
  ⟨by rfl, by rfl⟩

/-- C5 amended: the NEWER `on_error_default` raises a `ValueError`
immediately when the supplied hook is not callable or not a coroutine
function and otherwise stores it, replacing any previous hook; the OLDER
variant raises only for a non-callable hook — a synchronous callable is
accepted and stored. -/
theorem c5_amended (h : HookFn) (current : Option HookFn) :
    ((h.isCallable = false ∨ h.isCoroutineFn = false) →
      onErrorDefaultNew h current = .error "exception_handler must be callable") ∧
    (h.isCallable = true → h.isCoroutineFn = true →
      onErrorDefaultNew h current = .ok (some h)) ∧
    (h.isCallable = false →
      onErrorDefaultOld h current = .error "exception_handler must be callable") ∧
    (h.isCallable = true → onErrorDefaultOld h current = .ok (some h)) := by
  refine ⟨fun hc => ?_, fun hc hco => ?_, fun hc => ?_, fun hc => ?_⟩
  · rcases hc with hc | hc <;> simp [onErrorDefaultNew, hc]
  · simp [onErrorDefaultNew, hc, hco]
  · simp [onErrorDefaultOld, hc]
  · simp [onErrorDefaultOld, hc]

/-- C5 witness: a valid (callable, coroutine) hook replaces the
previously stored hook in both variants. -/
theorem c5_witness :
    onErrorDefaultNew ⟨true, true⟩ (some ⟨true, false⟩) = .ok (some ⟨true, true⟩) ∧
    onErrorDefaultOld ⟨true, true⟩ (some ⟨true, false⟩) = .ok (some ⟨true, true⟩) :=
  ⟨(c5_amended ⟨true, true⟩ (some ⟨true, false⟩)).2.1 rfl rfl,
   (c5_amended ⟨true, true⟩ (some ⟨true, false⟩)).2.2.2 rfl⟩

/-- With at least two positional arguments and a truthy last argument,
the request is located positionally. -/
theorem locateRequest_of_long (args : List Val) (kwreq : Option Val)
    (hlen : args.length > 1) (htr : truthy (pyLast args) = true) :
    locateRequest args kwreq = (true, some (pyLast args)) := by
  simp [locateRequest, hlen, htr]

/-- With at least two positional arguments but a falsy last argument,
the wrapper falls back to the `request` keyword argument. -/
theorem locateRequest_of_falsy (args : List Val) (kwreq : Option Val)
    (hlen : args.length > 1) (hfalsy : truthy (pyLast args) = false) :
    locateRequest args kwreq = (false, kwreq) := by
  simp [locateRequest, hlen, hfalsy]

/-- The catch-all clause never changes which arguments the handler had
received. -/
theorem handleExc_handlerArgs (hook : Option (Exc → Val))
    (called : Option (List Val × Option Val)) (e : Exc) :
    (handleExc hook called e).handlerArgs = called := by
  cases hook <;> rfl

/-- `args[-1]` of a list with a dropped head, when at least one further
element remains. -/
theorem pyLast_cons_of_ne (c : Val) (rest : List Val) (h : rest ≠ []) :
    pyLast (c :: rest) = pyLast rest := by
  cases rest with
  | nil => exact absurd rfl h
  | cons b bs => rfl

/-- C9: both wrappers locate and validate the LAST positional argument
but write the coerced value into position 1, keeping positions 2 onward
unchanged — so with three or more positional arguments the original
second argument is discarded and the raw, un-coerced payload still
reaches the user handler as the last argument; only with exactly two
positional arguments does the coerced value actually replace the
validated payload. -/
theorem c9_coerced_written_to_position_one
    (respm : Option RModel) (hook : Option (Exc → Val)) (m : PModel) (event : String)
    (handler : List Val → Option Val → Val)
    (a0 a1 : Val) (rest : List Val) (kwreq : Option Val) (coercedN coercedO : Val)
    (htr : truthy (pyLast (a0 :: a1 :: rest)) = true)
    (hvN : requestValidateNew event m (pyLast (a0 :: a1 :: rest)) = .ok coercedN)
    (hvO : requestValidateOld m (pyLast (a0 :: a1 :: rest)) = .ok coercedO) :
    (wrapperNew ⟨true, some (.core m), respm, hook⟩ event handler
        (a0 :: a1 :: rest) kwreq).handlerArgs =
      some (a0 :: coercedN :: rest, kwreq) ∧
    (wrapperOld ⟨true, some (.core m), respm, hook⟩ event handler
        (a0 :: a1 :: rest) kwreq).handlerArgs =
      some (a0 :: coercedO :: rest, kwreq) ∧
    (rest ≠ [] → pyLast (a0 :: coercedN :: rest) = pyLast (a0 :: a1 :: rest)) ∧
    (rest = [] → a0 :: coercedN :: rest = [a0, coercedN]) := by
  have hlen : (a0 :: a1 :: rest).length > 1 := by simp
  have hloc := locateRequest_of_long (a0 :: a1 :: rest) kwreq hlen htr
  refine ⟨?_, ?_, fun hne => ?_, fun he => by simp [he]⟩
  · simp only [wrapperNew, hloc, validatePhase, isRealModel, htr, hvN, replaceArg,
      Bool.and_self, if_true, List.headD, List.drop]
    cases responseCheckNew true respm event (handler (a0 :: coercedN :: rest) kwreq) with
    | error e => simp [handleExc_handlerArgs]
    | ok u => rfl
  · simp only [wrapperOld, hloc, validatePhase, isRealModel, htr, hvO, replaceArg,
      Bool.and_self, if_true, List.headD, List.drop]
    cases responseCheckOld respm event (handler (a0 :: coercedO :: rest) kwreq) with
    | error e => simp [handleExc_handlerArgs]
    | ok u => rfl
  · rw [pyLast_cons_of_ne a0 (coercedN :: rest) (by simp),
      pyLast_cons_of_ne coercedN rest hne,
      pyLast_cons_of_ne a0 (a1 :: rest) (by simp),
      pyLast_cons_of_ne a1 rest hne]

/-- C9 witness: with exactly two positional arguments the coerced record
instance does replace the raw dict, in both variants. -/
theorem c9_witness :
    (wrapperNew ⟨true, some (.core (.mbase "User" [("id", .fint)])), some .sentinel, none⟩
        "evt" (fun _ _ => Val.vnone)
        [Val.vstr "sid", Val.vdict [("id", Val.vint 1)]] none).handlerArgs =
      some ([Val.vstr "sid", Val.vmodel "User" [("id", Val.vint 1)]], none) ∧
    (wrapperOld ⟨true, some (.core (.mbase "User" [("id", .fint)])), some .sentinel, none⟩
        "evt" (fun _ _ => Val.vnone)
        [Val.vstr "sid", Val.vdict [("id", Val.vint 1)]] none).handlerArgs =
      some ([Val.vstr "sid", Val.vmodel "User" [("id", Val.vint 1)]], none) := by
  have h := c9_coerced_written_to_position_one (some .sentinel) none
    (.mbase "User" [("id", .fint)]) "evt" (fun _ _ => Val.vnone)
    (Val.vstr "sid") (Val.vdict [("id", Val.vint 1)]) [] none
    (Val.vmodel "User" [("id", Val.vint 1)]) (Val.vmodel "User" [("id", Val.vint 1)])
    (by rfl) (by rfl) (by rfl)
  exact ⟨h.1, h.2.1⟩

/-- C10: a falsy candidate payload (`0`, `""`, `False`, `{}`) in last
positional position is treated as an absent request: the pipeline falls
back to the keyword argument `request`, and (with no such keyword) no
coercion or validation is performed — whatever the configuration, even
with validation enabled and a request model declared — and the raw falsy
value reaches the user handler unchanged among the untouched positional
arguments, in both variants. -/
theorem c10_falsy_payload_treated_absent
    (cfg : PipeConfig) (event : String) (handler : List Val → Option Val → Val)
    (args : List Val)
    (hlen : args.length > 1)
    (hfalsy : truthy (pyLast args) = false) :
    locateRequest args none = (false, none) ∧
    validatePhase (requestValidateNew event) cfg.validate cfg.reqm
      (locateRequest args none) args none = .ok (args, none) ∧
    validatePhase requestValidateOld cfg.validate cfg.reqm
      (locateRequest args none) args none = .ok (args, none) ∧
    (wrapperNew cfg event handler args none).handlerArgs = some (args, none) ∧
    (wrapperOld cfg event handler args none).handlerArgs = some (args, none) ∧
    (∀ v, locateRequest args (some v) = (false, some v)) := by
  have hloc := locateRequest_of_falsy args none hlen hfalsy
  refine ⟨hloc, ?_, ?_, ?_, ?_, fun v => locateRequest_of_falsy args (some v) hlen hfalsy⟩
  · simp [validatePhase, hloc]
  · simp [validatePhase, hloc]
  · simp only [wrapperNew, hloc, validatePhase]
    cases responseCheckNew cfg.validate cfg.respm event (handler args none) with
    | error e => simp [handleExc_handlerArgs]
    | ok u => rfl
  · simp only [wrapperOld, hloc, validatePhase]
    cases responseCheckOld cfg.respm event (handler args none) with
    | error e => simp [handleExc_handlerArgs]
    | ok u => rfl

/-- C10 witness: the falsy conforming payload `0` against a declared
`int` model with validation enabled is passed through raw. -/
theorem c10_witness :
    locateRequest [Val.vstr "sid", Val.vint 0] none = (false, none) ∧
    (wrapperNew ⟨true, some (.core PModel.mint), some .sentinel, none⟩ "evt"
        (fun _ _ => Val.vnone) [Val.vstr "sid", Val.vint 0] none).handlerArgs =
      some ([Val.vstr "sid", Val.vint 0], none) ∧
    (wrapperOld ⟨true, some (.core PModel.mint), some .sentinel, none⟩ "evt"
        (fun _ _ => Val.vnone) [Val.vstr "sid", Val.vint 0] none).handlerArgs =
      some ([Val.vstr "sid", Val.vint 0], none) := by
  have h := c10_falsy_payload_treated_absent
    ⟨true, some (.core PModel.mint), some .sentinel, none⟩ "evt"
    (fun _ _ => Val.vnone) [Val.vstr "sid", Val.vint 0] (by simp) (by rfl)
  exact ⟨h.1, h.2.2.2.1, h.2.2.2.2.1⟩

/-- C6 at the failing input: three positional arguments
`(sid, extra, payload)` with a truthy payload conforming to the declared
record model.  Both variants validate the LAST argument but write the
coerced instance into position 1: the handler receives the coerced value
in place of `extra` while the raw, un-coerced dict payload still reaches
it in last position — contradicting the claim that the coerced value
replaces the raw payload. -/
theorem c6_failing_input :
    (wrapperNew ⟨true, some (.core (.mbase "User" [("id", .fint)])), some .sentinel, none⟩
        "evt" (fun _ _ => Val.vnone)
        [Val.vstr "sid", Val.vstr "extra", Val.vdict [("id", Val.vint 1)]] none).handlerArgs =
      some ([Val.vstr "sid", Val.vmodel "User" [("id", Val.vint 1)],
             Val.vdict [("id", Val.vint 1)]], none) ∧
    (wrapperOld ⟨true, some (.core (.mbase "User" [("id", .fint)])), some .sentinel, none⟩
        "evt" (fun _ _ => Val.vnone)
        [Val.vstr "sid", Val.vstr "extra", Val.vdict [("id", Val.vint 1)]] none).handlerArgs =
      some ([Val.vstr "sid", Val.vmodel "User" [("id", Val.vint 1)],
             Val.vdict [("id", Val.vint 1)]], none) ∧
    Val.vdict [("id", Val.vint 1)] ≠ Val.vmodel "User" [("id", Val.vint 1)] :=
  ⟨by rfl, by rfl, fun h => Val.noConfusion h⟩

/-- C7 counterexample: for a handler with NO positional parameters at
all (and no explicit request model), the `IndexError` branch leaves the
request model as Python `None` — not the `"NotProvided"` sentinel the
claim's fallback requires. -/
theorem c7_counterexample :
    (resolveModels true none none [] none).1 = none ∧
    (none : Option RModel) ≠ some RModel.sentinel :=
  ⟨by rfl, fun h => Option.noConfusion h⟩

/-- C7 amended: with `get_from_typehint` set, only models left unset
(`None`) are filled in — the request model from the last positional
parameter's annotation, the response model from the return annotation,
each falling back to the `"NotProvided"` sentinel when the annotation is
missing, EXCEPT that a handler with no positional parameters at all
leaves the request model `None`; explicitly supplied models are never
overwritten. -/
theorem c7_amended (gft : Bool) (reqArg respArg : Option RModel)
    (params : List (Option PModel)) (returnAnn : Option PModel) :
    (∀ r, reqArg = some r →
      (resolveModels gft reqArg respArg params returnAnn).1 = some r) ∧
    (∀ r, respArg = some r →
      (resolveModels gft reqArg respArg params returnAnn).2 = some r) ∧
    (gft = true → reqArg = none → params = [] →
      (resolveModels gft reqArg respArg params returnAnn).1 = none) ∧
    (gft = true → reqArg = none → ∀ front m, params = front ++ [some m] →
      (resolveModels gft reqArg respArg params returnAnn).1 = some (.core m)) ∧
    (gft = true → reqArg = none → ∀ front, params = front ++ [none] →
      (resolveModels gft reqArg respArg params returnAnn).1 = some .sentinel) ∧
    (gft = true → respArg = none → returnAnn = none →
      (resolveModels gft reqArg respArg params returnAnn).2 = some .sentinel) ∧
    (gft = true → respArg = none → ∀ m, returnAnn = some m →
      (resolveModels gft reqArg respArg params returnAnn).2 = some (.core m)) ∧
    (gft = false →
      resolveModels gft reqArg respArg params returnAnn = (reqArg, respArg)) := by
  refine ⟨fun r hr => ?_, fun r hr => ?_, fun hg hr hp => ?_,
    fun hg hr front m hp => ?_, fun hg hr front hp => ?_,
    fun hg hr ha => ?_, fun hg hr m ha => ?_, fun hg => ?_⟩ <;>
    subst_vars <;>
    simp [resolveModels, inferredRequest, inferredResponse] <;>
    cases gft <;> simp

/-- C7 witness: an annotated last parameter fills an unset request
model; an explicit response model survives the inference. -/
theorem c7_witness :
    (resolveModels true none (some (.core PModel.mbool)) [none, some PModel.mint] none).1 =
      some (.core PModel.mint) ∧
    (resolveModels true none (some (.core PModel.mbool)) [none, some PModel.mint] none).2 =
      some (.core PModel.mbool) := by
  have h := c7_amended true none (some (.core PModel.mbool)) [none, some PModel.mint] none
  exact ⟨h.2.2.2.1 rfl rfl [none] PModel.mint rfl, h.2.1 (.core PModel.mbool) rfl⟩

/-- C8: rendering the specification document is a pure projection —
rendering twice with no intervening registration yields identical text
both times, and rendering leaves the in-memory document tree unchanged. -/
theorem c8_render_pure_idempotent (d : AsyncAPIDoc) :
    (get_yaml d).2 = d ∧
    (get_yaml ((get_yaml d).2)).1 = (get_yaml d).1 :=
  ⟨rfl, rfl⟩

end SocketioAsyncapi
